import Mathlib

/-!
Shallow embedding of the Recuvia upload/search glue layer.

Source files embedded:
* `frontend/app/api/upload/route.ts` (the `POST` ingestion handler with its
  auth check, field validation, storage upload, embedding generation and
  database-insert retry loop);
* `frontend/app/main/page.tsx` (`handleTextSearch`).

External services (Supabase auth/storage/database, the CLIP embedding model)
are modelled as oracles supplied in an environment record `UploadEnv`; the
handler itself is a pure function from the environment to the HTTP response
together with a record of the side effects it performed.
-/

namespace Recuvia

/-- Modelled from the spec: `VECTOR_DIMENSION` is imported from
`app/utils/supabase`, which is not among the sources; the spec describes it
only as "a fixed constant dimension" for embedding vectors.  The CLIP
ViT-B/32 projection dimension is 512.  No claim depends on the numeric
value, only on equality with this fixed constant. -/
def VECTOR_DIMENSION : Nat := 512

/-- `maxRetries = 3` from the database-insert retry loop in the upload route. -/
def maxRetries : Nat := 3

/-- An error thrown by `insertItemWithEmbedding`: a human-readable message and
an optional Supabase error code (`"42501"` marks a row-level-security
rejection). -/
structure InsertError where
  message : String
  code : Option String
deriving Repr, DecidableEq

/-- The `image` form field: a file with a name and a MIME type.  (The byte
content is not modelled; the embedding the model computes from it is supplied
directly by the environment.) -/
structure ImageFile where
  name : String
  mimeType : String
deriving Repr, DecidableEq

/-- Environment of one request to the upload route: the outcome of every
external call the handler makes, in source order. -/
structure UploadEnv where
  /-- `error` component of `supabase.auth.getSession()` (its message). -/
  sessionError : Option String
  /-- `data.session`: the authenticated user's id when a session exists. -/
  session : Option String
  /-- `formData.get('title')` (`none` = field absent). -/
  title : Option String
  /-- `formData.get('description')`. -/
  description : Option String
  /-- `formData.get('location')`. -/
  location : Option String
  /-- `formData.get('image')` (`none` = absent or not a file). -/
  image : Option ImageFile
  /-- `uuidv4()`. -/
  freshId : String
  /-- `error` component of `supabase.storage.upload` (its message). -/
  uploadError : Option String
  /-- `urlData?.publicUrl` from `getPublicUrl`. -/
  publicUrl : Option String
  /-- `image_embeds.tolist()[0]`: the vector computed by the vision model. -/
  image_embeds : List Int
  /-- Outcome of `insertItemWithEmbedding` on the given (1-based) attempt:
  `none` = success, `some e` = the error thrown. -/
  insertResult : Nat → Option InsertError
  /-- Abstract clock used for `Date.now()` timestamps and elapsed time. -/
  now : Nat

/-- JSON response body: `{error}` or `{success, itemId, imageUrl, processingTime}`. -/
inductive Body where
  | err (message : String)
  | ok (itemId : String) (imageUrl : String) (processingTime : Nat)
deriving Repr, DecidableEq

/-- An HTTP response: status code and JSON body. -/
structure Resp where
  status : Nat
  body : Body
deriving Repr, DecidableEq

/-- State tag of a `processingStatus` entry. -/
inductive StatusTag where
  | processing
  | complete
  | error
deriving Repr, DecidableEq

/-- A `processingStatus[itemId]` record. -/
structure ProcStatus where
  status : StatusTag
  message : String
  timestamp : Nat
deriving Repr, DecidableEq

/-- The Item row passed to `insertItemWithEmbedding`. -/
structure Item where
  id : String
  title : String
  description : String
  location : String
  url : String
  submitter_id : String
  embedding : List Int
deriving Repr, DecidableEq

/-- Side effects one request performed, as observed after the handler
returns. -/
structure Effects where
  /-- Final value of `processingStatus[itemId]` (`none` = never created). -/
  statusEntry : Option ProcStatus
  /-- Whether `supabase.storage.upload` was called. -/
  storageCalled : Bool
  /-- Whether the embedding pipeline ran on the image. -/
  embedComputed : Bool
  /-- Number of `insertItemWithEmbedding` calls performed. -/
  attempts : Nat
  /-- Milliseconds slept between consecutive insert attempts, in order. -/
  delays : List Nat
  /-- Attempt numbers on which the distinct RLS-violation log was emitted. -/
  rlsLogs : List Nat
  /-- The row actually persisted, when some attempt succeeded. -/
  persisted : Option Item
deriving Repr, DecidableEq

/-- No side effects at all. -/
def noEffects : Effects :=
  { statusEntry := none, storageCalled := false, embedComputed := false,
    attempts := 0, delays := [], rlsLogs := [], persisted := none }

/-- JavaScript falsiness of a nullable string form field: absent or empty. -/
def falsy : Option String → Bool
  | none => true
  | some s => s == ""

/-- Result of the database-insert retry loop. -/
structure LoopResult where
  attempts : Nat
  delays : List Nat
  rlsLogs : List Nat
  /-- `Except.ok ()` = an attempt succeeded (handler returns 200);
  `Except.error msg` = the loop threw `msg` into the general catch block. -/
  outcome : Except String Unit
deriving Repr

/-- The `for (let attempt = 1; attempt <= maxRetries; attempt++)` retry loop
around `insertItemWithEmbedding`.  `fuel` is the number of iterations left
(`maxRetries` at the initial call with `attempt = 1`); the `fuel = 0` case is
the loop falling through, unreachable at the actual call site. -/
def insertLoop (ins : Nat → Option InsertError) : Nat → Nat → LoopResult
  | 0, _ => ⟨0, [], [], Except.error "loop exited without result"⟩
  | fuel + 1, attempt =>
    match ins attempt with
    | none => ⟨1, [], [], Except.ok ()⟩
    | some e =>
      let rls := if e.code = some "42501" then [attempt] else []
      if attempt = maxRetries then
        ⟨1, [], rls,
          Except.error ("Failed database insert after " ++ toString maxRetries
            ++ " attempts: " ++ e.message)⟩
      else
        let delay := 2 ^ attempt * 1000
        let rest := insertLoop ins fuel (attempt + 1)
        ⟨rest.attempts + 1, delay :: rest.delays, rls ++ rest.rlsLogs,
          rest.outcome⟩

/-- The `POST` handler of `frontend/app/api/upload/route.ts`, as a pure
function from the request environment to the HTTP response and the side
effects performed.  Branches appear in source order: session-retrieval error
(500), no session (401), missing required fields (400), storage upload
failure (throw, caught as 500), empty public URL (throw), embedding dimension
mismatch (throw), then the insert retry loop; every throw lands in the
general catch block, which records a terminal error status (the item id is
set by then) and responds 500 with `'Upload failed: ' + message`. -/
def POST (env : UploadEnv) : Resp × Effects :=
  match env.sessionError with
  | some msg =>
    (⟨500, Body.err ("Server error retrieving session: " ++ msg)⟩, noEffects)
  | none =>
    match env.session with
    | none => (⟨401, Body.err "No active session"⟩, noEffects)
    | some user =>
      if falsy env.title || falsy env.location || env.image.isNone then
        (⟨400, Body.err "Missing required fields"⟩, noEffects)
      else
        let itemId := env.freshId
        match env.uploadError with
        | some msg =>
          (⟨500, Body.err ("Upload failed: Storage upload error: " ++ msg)⟩,
            { noEffects with
              statusEntry := some ⟨StatusTag.error,
                "Storage upload error: " ++ msg, env.now⟩,
              storageCalled := true })
        | none =>
          let imageUrl := env.publicUrl.getD ""
          if imageUrl = "" then
            (⟨500, Body.err
                "Upload failed: Failed to get public URL for uploaded image."⟩,
              { noEffects with
                statusEntry := some ⟨StatusTag.error,
                  "Failed to get public URL for uploaded image.", env.now⟩,
                storageCalled := true })
          else
            let imageVector := env.image_embeds
            if imageVector.length ≠ VECTOR_DIMENSION then
              (⟨500, Body.err ("Upload failed: Generated embedding dimension ("
                  ++ toString imageVector.length
                  ++ ") does not match expected dimension ("
                  ++ toString VECTOR_DIMENSION ++ ")")⟩,
                { noEffects with
                  statusEntry := some ⟨StatusTag.error,
                    "Generated embedding dimension ("
                      ++ toString imageVector.length
                      ++ ") does not match expected dimension ("
                      ++ toString VECTOR_DIMENSION ++ ")", env.now⟩,
                  storageCalled := true, embedComputed := true })
            else
              let lr := insertLoop env.insertResult maxRetries 1
              match lr.outcome with
              | Except.ok _ =>
                (⟨200, Body.ok itemId imageUrl env.now⟩,
                  { statusEntry := some ⟨StatusTag.complete,
                      "Successfully processed and stored", env.now⟩,
                    storageCalled := true, embedComputed := true,
                    attempts := lr.attempts, delays := lr.delays,
                    rlsLogs := lr.rlsLogs,
                    persisted := some
                      { id := itemId, title := env.title.getD "",
                        description := env.description.getD "",
                        location := env.location.getD "", url := imageUrl,
                        submitter_id := user, embedding := imageVector } })
              | Except.error msg =>
                (⟨500, Body.err ("Upload failed: " ++ msg)⟩,
                  { statusEntry := some ⟨StatusTag.error, msg, env.now⟩,
                    storageCalled := true, embedComputed := true,
                    attempts := lr.attempts, delays := lr.delays,
                    rlsLogs := lr.rlsLogs, persisted := none })

/-! ### Text search (`handleTextSearch` in `frontend/app/main/page.tsx`) -/

/-- A search hit as the frontend receives it. -/
structure SearchResult where
  id : String
  similarity : Int
deriving Repr, DecidableEq

/-- Environment of one `handleTextSearch` invocation: component state read by
the handler plus the outcome of the `fetch('/api/search/text')` call. -/
structure TextSearchEnv where
  searchQuery : String
  /-- `maxResults` state: `"all"`, `"custom"`, or a numeric string. -/
  maxResults : String
  customMaxResults : String
  /-- Outcome of the search endpoint call: items on success, error message
  otherwise. -/
  fetchOutcome : Except String (List SearchResult)

/-- Observable outcome of `handleTextSearch`. -/
structure TextSearchOut where
  /-- `some l` when `setItems(l)` was called, `none` when items were left
  unchanged. -/
  items : Option (List SearchResult)
  /-- Whether the `/api/search/text` endpoint (and hence the server-side
  embedding pipeline) was invoked. -/
  fetchCalled : Bool
  /-- Whether the invalid-custom-max-results alert fired. -/
  alerted : Bool
deriving Repr, DecidableEq

/-- JavaScript `String.prototype.trim()`: drop leading and trailing
whitespace characters. -/
def jsTrim (s : String) : String :=
  String.mk
    (((s.data.dropWhile Char.isWhitespace).reverse.dropWhile
      Char.isWhitespace).reverse)

/-- `!customMaxResults || isNaN(Number(customMaxResults)) ||
Number(customMaxResults) < 1`, with `Number` parsing modelled by
`String.toNat?` (claims do not depend on this branch). -/
def invalidCustom (s : String) : Bool :=
  s == "" ||
    match s.toNat? with
    | none => true
    | some n => n < 1

/-- `handleTextSearch`: an empty trimmed query sets the item list to `[]` and
returns before anything else; an invalid custom max-results alerts and
returns; otherwise the text-search endpoint is called and the items are set
from its response (to `[]` on error). -/
def handleTextSearch (env : TextSearchEnv) : TextSearchOut :=
  if jsTrim env.searchQuery = "" then
    { items := some [], fetchCalled := false, alerted := false }
  else
    if env.maxResults == "custom" && invalidCustom env.customMaxResults then
      { items := none, fetchCalled := false, alerted := true }
    else
      match env.fetchOutcome with
      | Except.ok l => { items := some l, fetchCalled := true, alerted := false }
      | Except.error _ => { items := some [], fetchCalled := true, alerted := false }

/-- Replace the Supabase error code of every insert failure by `g k`, keeping
messages: used to state that the retry loop's control flow never inspects the
code. -/
def setCodes (ins : Nat → Option InsertError) (g : Nat → Option String) :
    Nat → Option InsertError :=
  fun k => (ins k).map fun e => ⟨e.message, g k⟩

/-! ### Concrete environments used by witnesses -/

/-- A request environment on which every external call succeeds. -/
def okEnv : UploadEnv where
  sessionError := none
  session := some "user-1"
  title := some "Blue wallet"
  description := none
  location := some "Main library"
  image := some ⟨"wallet.png", "image/png"⟩
  freshId := "item-1"
  uploadError := none
  publicUrl := some "https://store/item-images/item-1-wallet.png"
  image_embeds := List.replicate VECTOR_DIMENSION 0
  insertResult := fun _ => none
  now := 42

/-- A database error without a Supabase code. -/
def dbErr : InsertError := ⟨"insert failed", none⟩

/-- A row-level-security rejection. -/
def rlsErr : InsertError := ⟨"new row violates row-level security policy", some "42501"⟩

end Recuvia

namespace Recuvia

/-! ## Theorems about the upload handler -/

/-- C10: when retrieving the session itself fails with an error (as distinct
from no session being present), the handler returns HTTP 500 with a JSON
error body — not 401 — before any side effect: no processing-status entry, no
storage upload, no database write. -/
theorem session_error_returns_500_no_side_effects (env : UploadEnv)
    (msg : String) (h : env.sessionError = some msg) :
    POST env =
      (⟨500, Body.err ("Server error retrieving session: " ++ msg)⟩,
        noEffects) := by
  simp [POST, h]

/-- Witness for `session_error_returns_500_no_side_effects`. -/
theorem session_error_returns_500_no_side_effects_witness :
    POST { okEnv with sessionError := some "boom" } =
      (⟨500, Body.err ("Server error retrieving session: " ++ "boom")⟩,
        noEffects) :=
  session_error_returns_500_no_side_effects _ "boom" rfl

/-- C5: with no active session (and no session-retrieval error), the handler
returns HTTP 401 before any side effect: no processing-status entry, no
storage upload, no database write. -/
theorem no_session_returns_401_no_side_effects (env : UploadEnv)
    (h1 : env.sessionError = none) (h2 : env.session = none) :
    POST env = (⟨401, Body.err "No active session"⟩, noEffects) := by
  simp [POST, h1, h2]

/-- Witness for `no_session_returns_401_no_side_effects`. -/
theorem no_session_returns_401_no_side_effects_witness :
    POST { okEnv with session := none } =
      (⟨401, Body.err "No active session"⟩, noEffects) :=
  no_session_returns_401_no_side_effects _ rfl rfl

/-- C4: for an authenticated request in which title, location, or image is
missing or empty, the handler returns HTTP 400 before any side effect: no
storage upload, no embedding computation, no database insert, and no
processing-status entry. -/
theorem missing_fields_return_400_no_side_effects (env : UploadEnv)
    (u : String) (h1 : env.sessionError = none) (h2 : env.session = some u)
    (h3 : falsy env.title = true ∨ falsy env.location = true ∨
      env.image = none) :
    POST env = (⟨400, Body.err "Missing required fields"⟩, noEffects) := by
  have hc : (falsy env.title || falsy env.location || env.image.isNone)
      = true := by
    rcases h3 with h | h | h <;> simp [h]
  simp [POST, h1, h2, hc]

/-- Witness for `missing_fields_return_400_no_side_effects`. -/
theorem missing_fields_return_400_no_side_effects_witness :
    POST { okEnv with title := some "" } =
      (⟨400, Body.err "Missing required fields"⟩, noEffects) :=
  missing_fields_return_400_no_side_effects _ "user-1" rfl rfl
    (Or.inl rfl)

/-- C9: a text search whose query is empty after trimming whitespace
short-circuits to an empty result list (`setItems([])`) without calling the
search endpoint — hence without invoking the embedding pipeline — and
without alerting. -/
theorem empty_query_short_circuits (env : TextSearchEnv)
    (h : jsTrim env.searchQuery = "") :
    handleTextSearch env =
      { items := some [], fetchCalled := false, alerted := false } := by
  simp [handleTextSearch, h]

/-- Witness for `empty_query_short_circuits`: a whitespace-only query. -/
theorem empty_query_short_circuits_witness :
    handleTextSearch
      { searchQuery := "   ", maxResults := "10",
        customMaxResults := "", fetchOutcome := Except.ok [⟨"hit", 1⟩] } =
      { items := some [], fetchCalled := false, alerted := false } :=
  empty_query_short_circuits _ (by decide)

end Recuvia

namespace Recuvia

/-- Helper: every delay recorded by the retry loop equals
`2 ^ attempt * 1000` milliseconds for the attempt it follows: the `i`-th
recorded delay (0-based) of a loop started at `attempt` is
`2 ^ (attempt + i) * 1000`. -/
theorem insertLoop_delay_spec (ins : Nat → Option InsertError) :
    ∀ fuel attempt i d,
      ((insertLoop ins fuel attempt).delays)[i]? = some d →
      d = 2 ^ (attempt + i) * 1000 := by
  intro fuel
  induction fuel with
  | zero =>
    intro attempt i d h
    simp [insertLoop] at h
  | succ n ih =>
    intro attempt i d h
    rw [insertLoop] at h
    cases hins : ins attempt with
    | none => simp [hins] at h
    | some e =>
      by_cases hm : attempt = maxRetries
      · subst hm
        simp [hins] at h
      · simp only [hins, hm, if_false] at h
        cases i with
        | zero =>
          rw [Nat.add_zero]
          simp at h
          omega
        | succ j =>
          simp at h
          have := ih (attempt + 1) j d h
          have harith : attempt + 1 + j = attempt + (j + 1) := by omega
          rw [harith] at this
          exact this

/-- Helper: the retry loop's attempt count, delays and outcome do not depend
on the Supabase error codes of the failures (only `rlsLogs` can). -/
theorem insertLoop_code_independent (ins : Nat → Option InsertError)
    (g : Nat → Option String) :
    ∀ fuel attempt,
      (insertLoop (setCodes ins g) fuel attempt).attempts
          = (insertLoop ins fuel attempt).attempts
      ∧ (insertLoop (setCodes ins g) fuel attempt).delays
          = (insertLoop ins fuel attempt).delays
      ∧ (insertLoop (setCodes ins g) fuel attempt).outcome
          = (insertLoop ins fuel attempt).outcome := by
  intro fuel
  induction fuel with
  | zero => intro attempt; exact ⟨rfl, rfl, rfl⟩
  | succ n ih =>
    intro attempt
    cases hins : ins attempt with
    | none => simp [insertLoop, setCodes, hins]
    | some e =>
      by_cases hm : attempt = maxRetries
      · subst hm
        simp [insertLoop, setCodes, hins]
      · obtain ⟨h1, h2, h3⟩ := ih (attempt + 1)
        simp [insertLoop, setCodes, hins, hm, h1, h2, h3]

/-- C1: when authentication, validation, storage upload and embedding all
succeed, and the database insert fails on the first two attempts and succeeds
on the third, the handler returns the 200 success response, performs exactly
3 insert attempts, and sleeps 2000 ms between the first and second attempt
and 4000 ms between the second and third. -/
theorem insert_fails_twice_then_succeeds (env : UploadEnv)
    (u url : String) (e1 e2 : InsertError)
    (h1 : env.sessionError = none) (h2 : env.session = some u)
    (h3 : falsy env.title = false) (h4 : falsy env.location = false)
    (h5 : env.image.isNone = false) (h6 : env.uploadError = none)
    (h7 : env.publicUrl = some url) (h8 : url ≠ "")
    (h9 : env.image_embeds.length = VECTOR_DIMENSION)
    (ha : env.insertResult 1 = some e1) (hb : env.insertResult 2 = some e2)
    (hc : env.insertResult 3 = none) :
    (POST env).1 = ⟨200, Body.ok env.freshId url env.now⟩
    ∧ (POST env).2.attempts = 3
    ∧ (POST env).2.delays = [2000, 4000] := by
  simp [POST, insertLoop, maxRetries, h1, h2, h3, h4, h5, h6, h7, h8, h9,
    ha, hb, hc]

/-- Witness for `insert_fails_twice_then_succeeds`. -/
theorem insert_fails_twice_then_succeeds_witness :
    (POST { okEnv with
        insertResult := fun k => if k ≤ 2 then some dbErr else none }).1
      = ⟨200, Body.ok "item-1" "https://store/item-images/item-1-wallet.png" 42⟩
    ∧ (POST { okEnv with
        insertResult := fun k => if k ≤ 2 then some dbErr else none }).2.attempts
      = 3
    ∧ (POST { okEnv with
        insertResult := fun k => if k ≤ 2 then some dbErr else none }).2.delays
      = [2000, 4000] :=
  insert_fails_twice_then_succeeds _ "user-1"
    "https://store/item-images/item-1-wallet.png" dbErr dbErr
    rfl rfl rfl rfl rfl rfl rfl (by decide)
    (by simp [okEnv]) rfl rfl rfl

/-- C2: when every database-insert attempt fails, the handler performs
exactly 3 attempts, responds 500 with the last error's message embedded in
the persistence-error body, and records a terminal `error` processing
status carrying that message. -/
theorem insert_always_fails_exhausts_retries (env : UploadEnv)
    (u url : String) (e1 e2 e3 : InsertError)
    (h1 : env.sessionError = none) (h2 : env.session = some u)
    (h3 : falsy env.title = false) (h4 : falsy env.location = false)
    (h5 : env.image.isNone = false) (h6 : env.uploadError = none)
    (h7 : env.publicUrl = some url) (h8 : url ≠ "")
    (h9 : env.image_embeds.length = VECTOR_DIMENSION)
    (ha : env.insertResult 1 = some e1) (hb : env.insertResult 2 = some e2)
    (hc : env.insertResult 3 = some e3) :
    (POST env).2.attempts = 3
    ∧ (POST env).1 = ⟨500, Body.err ("Upload failed: "
        ++ ("Failed database insert after " ++ toString maxRetries
          ++ " attempts: " ++ e3.message))⟩
    ∧ (POST env).2.statusEntry = some ⟨StatusTag.error,
        "Failed database insert after " ++ toString maxRetries
          ++ " attempts: " ++ e3.message, env.now⟩ := by
  simp [POST, insertLoop, maxRetries, h1, h2, h3, h4, h5, h6, h7, h8, h9,
    ha, hb, hc]

/-- Witness for `insert_always_fails_exhausts_retries`. -/
theorem insert_always_fails_exhausts_retries_witness :
    (POST { okEnv with insertResult := fun _ => some dbErr }).2.attempts = 3
    ∧ (POST { okEnv with insertResult := fun _ => some dbErr }).1
      = ⟨500, Body.err ("Upload failed: "
          ++ ("Failed database insert after " ++ toString maxRetries
            ++ " attempts: " ++ dbErr.message))⟩
    ∧ (POST { okEnv with insertResult := fun _ => some dbErr }).2.statusEntry
      = some ⟨StatusTag.error,
          "Failed database insert after " ++ toString maxRetries
            ++ " attempts: " ++ dbErr.message, 42⟩ :=
  insert_always_fails_exhausts_retries _ "user-1"
    "https://store/item-images/item-1-wallet.png" dbErr dbErr dbErr
    rfl rfl rfl rfl rfl rfl rfl (by decide)
    (by simp [okEnv]) rfl rfl rfl

end Recuvia

namespace Recuvia

/-- C3: every item the ingestion handler persists carries exactly the
computed embedding vector (never truncated or padded), whose length is
`VECTOR_DIMENSION`; and if the computed embedding's length differs from
`VECTOR_DIMENSION`, the request fails (500) with zero persistence attempts
whenever the pipeline actually ran. -/
theorem persisted_embedding_dimension_invariant (env : UploadEnv) :
    (∀ it : Item, (POST env).2.persisted = some it →
      it.embedding = env.image_embeds
      ∧ it.embedding.length = VECTOR_DIMENSION)
    ∧ (env.image_embeds.length ≠ VECTOR_DIMENSION →
      (POST env).2.embedComputed = true →
      (POST env).1.status = 500 ∧ (POST env).2.attempts = 0
      ∧ (POST env).2.persisted = none) := by
  constructor
  · intro it h
    simp only [POST] at h
    repeat' split at h
    all_goals try simp_all [noEffects]
    all_goals subst h
    all_goals exact ⟨rfl, by assumption⟩
  · intro hdim
    simp only [POST]
    repeat' split
    all_goals simp_all [noEffects]

set_option maxRecDepth 8192 in
/-- Witness for `persisted_embedding_dimension_invariant`: the successfully
persisted item of `okEnv`, and a mismatching one-element embedding. -/
theorem persisted_embedding_dimension_invariant_witness :
    ((⟨"item-1", "Blue wallet", "", "Main library",
        "https://store/item-images/item-1-wallet.png", "user-1",
        List.replicate VECTOR_DIMENSION 0⟩ : Item).embedding
        = okEnv.image_embeds
      ∧ (Item.embedding ⟨"item-1", "Blue wallet", "", "Main library",
          "https://store/item-images/item-1-wallet.png", "user-1",
          List.replicate VECTOR_DIMENSION 0⟩).length = VECTOR_DIMENSION)
    ∧ ((POST { okEnv with image_embeds := [0] }).1.status = 500
      ∧ (POST { okEnv with image_embeds := [0] }).2.attempts = 0
      ∧ (POST { okEnv with image_embeds := [0] }).2.persisted = none) :=
  ⟨(persisted_embedding_dimension_invariant okEnv).1 _ rfl,
    (persisted_embedding_dimension_invariant
        { okEnv with image_embeds := [0] }).2 (by decide) rfl⟩

/-- C6: a 200 response always carries the
`{success, itemId, imageUrl, processingTime}` body with a non-empty
`imageUrl`; and when the object store yields an empty or missing public URL,
the otherwise-healthy request fails with 500 before any insert attempt. -/
theorem success_body_shape_and_nonempty_url (env : UploadEnv) :
    ((POST env).1.status = 200 →
      ∃ iid iurl pt, (POST env).1.body = Body.ok iid iurl pt ∧ iurl ≠ "")
    ∧ (∀ u : String, env.sessionError = none → env.session = some u →
      falsy env.title = false → falsy env.location = false →
      env.image.isNone = false → env.uploadError = none →
      env.publicUrl.getD "" = "" →
      (POST env).1 = ⟨500, Body.err
          "Upload failed: Failed to get public URL for uploaded image."⟩
        ∧ (POST env).2.attempts = 0) := by
  constructor
  · simp only [POST]
    repeat' split
    all_goals try simp_all [noEffects]
    all_goals exact ⟨_, _, ⟨rfl, rfl⟩, by assumption⟩
  · intro u h1 h2 h3 h4 h5 h6 h7
    simp [POST, noEffects, h1, h2, h3, h4, h5, h6, h7]

set_option maxRecDepth 8192 in
/-- Witness for `success_body_shape_and_nonempty_url`: a fully successful
run, and a run whose `getPublicUrl` returns nothing. -/
theorem success_body_shape_and_nonempty_url_witness :
    (∃ iid iurl pt, (POST okEnv).1.body = Body.ok iid iurl pt ∧ iurl ≠ "")
    ∧ ((POST { okEnv with publicUrl := none }).1 = ⟨500, Body.err
          "Upload failed: Failed to get public URL for uploaded image."⟩
      ∧ (POST { okEnv with publicUrl := none }).2.attempts = 0) :=
  ⟨(success_body_shape_and_nonempty_url okEnv).1 rfl,
    (success_body_shape_and_nonempty_url { okEnv with publicUrl := none }).2
      "user-1" rfl rfl rfl rfl rfl rfl rfl⟩

set_option maxRecDepth 8192 in
/-- C7 counterexample: on a run where every insert attempt fails, the
recorded delays are 2000 ms then 4000 ms — the delay before the first retry
is 2 seconds, not the 1 second the claim states (the code computes
`2 ^ attempt * 1000` with `attempt` starting at 1, so the sequence
1s, 2s, 4s is never produced). -/
theorem first_retry_delay_is_two_seconds_not_one :
    (POST { okEnv with insertResult := fun _ => some dbErr }).2.delays
      = [2000, 4000]
    ∧ (POST { okEnv with
        insertResult := fun _ => some dbErr }).2.delays[0]? ≠ some 1000 := by
  exact ⟨rfl, by decide⟩

/-- C7 amended: between successive insert attempts the delay is
`2 ^ attempt` seconds with `attempt` counted from 1: the `i`-th recorded
delay (0-based) equals `2 ^ (i + 1) * 1000` ms, i.e. the sequence is
2s, 4s — the delay before the first retry is 2 seconds. -/
theorem retry_delay_is_two_pow_attempt (env : UploadEnv) (i d : Nat)
    (h : (POST env).2.delays[i]? = some d) :
    d = 2 ^ (i + 1) * 1000 := by
  simp only [POST] at h
  repeat' split at h
  all_goals simp_all [noEffects]
  all_goals
    have h2 := insertLoop_delay_spec env.insertResult maxRetries 1 i d h
  all_goals rw [Nat.add_comm] at h2
  all_goals exact h2

set_option maxRecDepth 8192 in
/-- Witness for `retry_delay_is_two_pow_attempt`. -/
theorem retry_delay_is_two_pow_attempt_witness :
    (POST { okEnv with
        insertResult := fun _ => some dbErr }).2.delays[0]? = some 2000
    ∧ (2000 : Nat) = 2 ^ (0 + 1) * 1000 :=
  ⟨rfl, retry_delay_is_two_pow_attempt
    { okEnv with insertResult := fun _ => some dbErr } 0 2000 rfl⟩

end Recuvia

namespace Recuvia

/-- C8: a row-level-security rejection (Supabase code 42501) is logged
distinctly but consumes a retry attempt exactly like any other failure.
First conjunct: the retry loop's attempt count, delays and outcome are
invariant under arbitrarily rewriting the error codes of the failures — in
particular an RLS code never terminates the loop early and leaves the
maximum of 3 attempts unchanged.  Second conjunct: a run whose three insert
attempts all fail with code 42501 still performs exactly 3 attempts with the
usual delays, fails with 500, and the distinct RLS log fires on each of the
three attempts. -/
theorem rls_rejection_consumes_attempt_like_any_failure (env : UploadEnv)
    (ins : Nat → Option InsertError) (g : Nat → Option String)
    (u url : String) (e1 e2 e3 : InsertError)
    (h1 : env.sessionError = none) (h2 : env.session = some u)
    (h3 : falsy env.title = false) (h4 : falsy env.location = false)
    (h5 : env.image.isNone = false) (h6 : env.uploadError = none)
    (h7 : env.publicUrl = some url) (h8 : url ≠ "")
    (h9 : env.image_embeds.length = VECTOR_DIMENSION)
    (ha : env.insertResult 1 = some e1) (ka : e1.code = some "42501")
    (hb : env.insertResult 2 = some e2) (kb : e2.code = some "42501")
    (hc : env.insertResult 3 = some e3) (kc : e3.code = some "42501") :
    ((insertLoop (setCodes ins g) maxRetries 1).attempts
        = (insertLoop ins maxRetries 1).attempts
      ∧ (insertLoop (setCodes ins g) maxRetries 1).delays
        = (insertLoop ins maxRetries 1).delays
      ∧ (insertLoop (setCodes ins g) maxRetries 1).outcome
        = (insertLoop ins maxRetries 1).outcome)
    ∧ ((POST env).2.attempts = 3
      ∧ (POST env).1.status = 500
      ∧ (POST env).2.delays = [2000, 4000]
      ∧ (POST env).2.rlsLogs = [1, 2, 3]) := by
  refine ⟨insertLoop_code_independent ins g maxRetries 1, ?_⟩
  simp [POST, insertLoop, maxRetries, h1, h2, h3, h4, h5, h6, h7, h8, h9,
    ha, ka, hb, kb, hc, kc]

set_option maxRecDepth 8192 in
/-- Witness for `rls_rejection_consumes_attempt_like_any_failure`: all three
attempts rejected by row-level security. -/
theorem rls_rejection_consumes_attempt_like_any_failure_witness :
    ((insertLoop (setCodes (fun _ => none) (fun _ => none)) maxRetries 1).attempts
        = (insertLoop (fun _ => none) maxRetries 1).attempts
      ∧ (insertLoop (setCodes (fun _ => none) (fun _ => none)) maxRetries 1).delays
        = (insertLoop (fun _ => none) maxRetries 1).delays
      ∧ (insertLoop (setCodes (fun _ => none) (fun _ => none)) maxRetries 1).outcome
        = (insertLoop (fun _ => none) maxRetries 1).outcome)
    ∧ ((POST { okEnv with insertResult := fun _ => some rlsErr }).2.attempts = 3
      ∧ (POST { okEnv with insertResult := fun _ => some rlsErr }).1.status = 500
      ∧ (POST { okEnv with insertResult := fun _ => some rlsErr }).2.delays
        = [2000, 4000]
      ∧ (POST { okEnv with insertResult := fun _ => some rlsErr }).2.rlsLogs
        = [1, 2, 3]) :=
  rls_rejection_consumes_attempt_like_any_failure
    { okEnv with insertResult := fun _ => some rlsErr }
    (fun _ => none) (fun _ => none) "user-1"
    "https://store/item-images/item-1-wallet.png" rlsErr rlsErr rlsErr
    rfl rfl rfl rfl rfl rfl rfl (by decide)
    (by simp [okEnv]) rfl rfl rfl rfl rfl rfl

end Recuvia
